import Mathlib

/-!
Verification of the waypoint-tracking PID controller in
scripts/tracking_pid_node.py.

The embedding is shallow: numpy floats become elements of a linear ordered
field (the PID regulator is stated generically, instantiated at the rationals
for concrete evaluations and at the reals for the controller, whose frame
transform uses cos, sin, arctan and tanh); the mutable attributes of the two
Python classes become explicit record state threaded through the operations;
the one fallible operation (deque.popleft on a possibly empty deque, which
raises IndexError in Python) returns Except.  rospy.Time.now() inside
PID.update becomes an explicit time argument; the verbose/logging paths are
elided, as they do not affect any computed value.
-/

namespace TrackingPid

/-- np.clip(a, lo, hi) computes minimum(maximum(a, lo), hi); in particular
when lo > hi the result is hi. -/
def clip {α : Type} [LinearOrder α] (x lo hi : α) : α := min (max x lo) hi

/-- The PID class of tracking_pid_node.py: gains and limits (kp, kd, ki,
min_output, max_output, delta, min_integral, max_integral) together with the
mutable regulator state set by reset() and update() (integral,
previous_output, previous_error, previous_time).  Timestamps are field
elements (seconds, as produced by to_sec()). -/
structure PID (α : Type) where
  kp : α
  kd : α
  ki : α
  min_output : α
  max_output : α
  delta : α
  min_integral : α
  max_integral : α
  integral : α
  previous_output : α
  previous_error : Option α
  previous_time : α

/-- PID.reset: integral and previous_output to 0, previous_error to unset,
previous_time to the current time. -/
def PID.reset {α : Type} [LinearOrderedField α] (p : PID α) (now : α) : PID α :=
  { p with
    integral := 0
    previous_output := 0
    previous_error := none
    previous_time := now }

/-- PID.update(error): dt = now - previous_time; proportional = kp * error;
derivative = kd * (error - previous_error) / dt when dt > 0 (with
previous_error initialised to error on the first call), else 0; the integral
accumulates error * dt and is then passed through
np.clip(integral, max_integral, max_integral) exactly as the source does;
the output is np.clip-ped first to [min_output, max_output] and then to
[previous_output - delta, previous_output + delta]; previous_error,
previous_time and previous_output are advanced.  Returns the new regulator
state together with the returned output. -/
def PID.update {α : Type} [LinearOrderedField α] (p : PID α) (error now : α) :
    PID α × α :=
  let dt := now - p.previous_time
  let proportional := p.kp * error
  let derivative : α :=
    if 0 < dt then p.kd * (error - p.previous_error.getD error) / dt else 0
  let integral1 := clip (p.integral + error * dt) p.max_integral p.max_integral
  let integralTerm := p.ki * integral1
  let output1 :=
    clip (proportional + integralTerm + derivative) p.min_output p.max_output
  let output :=
    clip output1 (p.previous_output - p.delta) (p.previous_output + p.delta)
  ({ p with
      integral := integral1
      previous_error := some error
      previous_time := now
      previous_output := output },
    output)

/-- Concrete rational PID instance exhibiting the integral-clamp defect:
min_integral = -1, max_integral = 1, stored integral 0. -/
def pidC2 : PID ℚ :=
  { kp := 1, kd := 1, ki := 1, min_output := -10, max_output := 10,
    delta := 10, min_integral := -1, max_integral := 1, integral := 0,
    previous_output := 0, previous_error := none, previous_time := 0 }

/-- Concrete rational PID instance with negative delta = -1. -/
def pidC3 : PID ℚ :=
  { kp := 1, kd := 0, ki := 0, min_output := -10, max_output := 10,
    delta := -1, min_integral := 0, max_integral := 0, integral := 0,
    previous_output := 0, previous_error := none, previous_time := 0 }

/-- Concrete rational PID instance with delta = 2 used to witness the
amended slew bound. -/
def pidC3w : PID ℚ :=
  { kp := 3, kd := 1, ki := 1, min_output := -10, max_output := 10,
    delta := 2, min_integral := -5, max_integral := 5, integral := 0,
    previous_output := 0, previous_error := none, previous_time := 0 }

/-- Concrete rational PID instance whose previous_time lies in the future of
the next update call. -/
def pidC6 : PID ℚ :=
  { kp := 2, kd := 9, ki := 1, min_output := -10, max_output := 10,
    delta := 10, min_integral := -5, max_integral := 5, integral := 0,
    previous_output := 0, previous_error := some 4, previous_time := 5 }

/-- Iterated update against a stream of call times: iter 0 is the regulator
as given, iter (n+1) is the state after the (n+1)-st update call with error
0 at time t n. -/
noncomputable def PID.iter (p : PID ℝ) (t : ℕ → ℝ) : ℕ → PID ℝ
  | 0 => p
  | n + 1 => ((p.iter t n).update 0 (t n)).1

/-- The output history of the zero-error iteration: iterOut 0 is the initial
previous_output, iterOut (n+1) the output returned by the (n+1)-st call. -/
noncomputable def PID.iterOut (p : PID ℝ) (t : ℕ → ℝ) (n : ℕ) : ℝ :=
  (p.iter t n).previous_output

/-- Concrete real PID configuration refuting the unconditional convergence
claim: ki = kd = 0 but min_output = 1 > 0, so zero lies outside the output
clamp range and the output settles at 1, never at 0. -/
def pidC10 : PID ℝ :=
  { kp := 1, kd := 0, ki := 0, min_output := 1, max_output := 2,
    delta := 1, min_integral := 0, max_integral := 0, integral := 0,
    previous_output := 0, previous_error := none, previous_time := 0 }

/-- Call times 1, 2, 3, ... so that every dt is positive. -/
def tC10 : ℕ → ℝ := fun n => n + 1

/-- Concrete real PID configuration satisfying the amended convergence
hypotheses, starting from previous_output = 5. -/
def pidC10w : PID ℝ :=
  { kp := 1, kd := 0, ki := 0, min_output := -1, max_output := 1,
    delta := 1, min_integral := 0, max_integral := 0, integral := 0,
    previous_output := 5, previous_error := none, previous_time := 0 }

/-- The two components of a geometry_msgs Twist the node reads and writes:
linear.x and angular.z. -/
structure Twist where
  linear : ℝ
  angular : ℝ

/-- The five slots of self.odom: planar position, yaw extracted from the
quaternion, and the measured linear and angular velocity. -/
structure Odom where
  x : ℝ
  y : ℝ
  yaw : ℝ
  v : ℝ
  w : ℝ

/-- One entry of a states message: the five slots copied into
self.waypoint. -/
structure Waypoint where
  x : ℝ
  y : ℝ
  yaw : ℝ
  ux : ℝ
  utheta : ℝ

/-- The mutable attributes of TrackingPIDWQueue: previous commanded
velocities, the Twist being published, the need_waypoint flag, the odometry
and current-waypoint slots, the tunables, the two PID regulators, the
waypoint counter i and the deque of remaining waypoints. -/
structure CState where
  prev_linear_vel : ℝ
  prev_angular_vel : ℝ
  twist : Twist
  need_waypoint : Bool
  odom : Odom
  waypoint : Waypoint
  rotate_lin_vel : ℝ
  verbose : Bool
  angular_tolerance : ℝ
  robot_radius : ℝ
  pid_angular : PID ℝ
  pid_linear : PID ℝ
  i : ℕ
  states : List Waypoint

/-- The dynamic_reconfigure keys read by param_callback. -/
structure Config where
  angular_tolerance : ℝ
  rotate_lin_vel : ℝ
  angular_kp : ℝ
  angular_ki : ℝ
  angular_kd : ℝ
  angular_min_integral : ℝ
  angular_max_integral : ℝ
  angular_min_output : ℝ
  angular_max_output : ℝ
  linear_kp : ℝ
  linear_ki : ℝ
  linear_kd : ℝ
  linear_min_integral : ℝ
  linear_max_integral : ℝ
  linear_min_output : ℝ
  linear_max_output : ℝ

/-- np.arctan2(y, x): the angle of the vector (x, y), in (-pi, pi].  For
x > 0 it is arctan (y/x); for x < 0 the arctan is shifted by pi toward the
sign of y (with y = 0 giving pi, as numpy does for +0.0); on the x = 0 axis
it is the sign of y times pi/2, and 0 at the origin. -/
noncomputable def atan2 (y x : ℝ) : ℝ :=
  if 0 < x then Real.arctan (y / x)
  else if x < 0 then
    if 0 ≤ y then Real.arctan (y / x) + Real.pi
    else Real.arctan (y / x) - Real.pi
  else if 0 < y then Real.pi / 2
  else if y < 0 then -(Real.pi / 2)
  else 0

/-- The frame transform of control(): world-frame delta to the waypoint,
rotated by the robot yaw into (forward, lateral); returns the tuple
(angular_error, linear_error, dist) where angular_error =
arctan2(lateral, forward), linear_error = tanh(forward) and dist =
hypot(y_diff, x_diff). -/
noncomputable def computeErrors (s : CState) : ℝ × ℝ × ℝ :=
  let x_diff := s.waypoint.x - s.odom.x
  let y_diff := s.waypoint.y - s.odom.y
  let dist := Real.sqrt (y_diff ^ 2 + x_diff ^ 2)
  let yaw := s.odom.yaw
  let x_relative := Real.cos yaw * x_diff + Real.sin yaw * y_diff
  let y_relative := -Real.sin yaw * x_diff + Real.cos yaw * y_diff
  (atan2 y_relative x_relative, Real.tanh x_relative, dist)

/-- The Twist published by control(): angular.z is the angular PID output
on angular_error; linear.x is the linear PID output on linear_error unless
|angular_error| > angular_tolerance, in which case it is overridden with
rotate_lin_vel. -/
noncomputable def controlTwist (s : CState) (now : ℝ) : Twist :=
  let e := computeErrors s
  { linear :=
      if s.angular_tolerance < |e.1| then s.rotate_lin_vel
      else (s.pid_linear.update e.2.1 now).2,
    angular := (s.pid_angular.update e.1 now).2 }

/-- The attribute mutations of control() before the arrival check: both PID
regulators are updated, the published twist is stored, and the pre-override
PID outputs are recorded into prev_angular_vel and prev_linear_vel. -/
noncomputable def controlState (s : CState) (now : ℝ) : CState :=
  let e := computeErrors s
  { s with
    pid_angular := (s.pid_angular.update e.1 now).1
    pid_linear := (s.pid_linear.update e.2.1 now).1
    twist := controlTwist s now
    prev_angular_vel := (s.pid_angular.update e.1 now).2
    prev_linear_vel := (s.pid_linear.update e.2.1 now).2 }

/-- get_new_waypoint(): increments i and pops the next waypoint from the
deque into the current slot, clearing need_waypoint.  states.popleft() on an
empty deque raises IndexError, modelled as the error result. -/
def get_new_waypoint (s : CState) : Except Unit CState :=
  match s.states with
  | [] => .error ()
  | w :: rest =>
    .ok { s with
      i := s.i + 1
      states := rest
      waypoint := w
      need_waypoint := false }

/-- control(): computes the errors, updates both PIDs, applies the heading
override, and if dist < robot_radius sets need_waypoint and advances the
queue (raising if it is exhausted) before publishing the twist.  The ok
result carries the post-call state and the published Twist; the error result
is the uncaught IndexError. -/
noncomputable def control (s : CState) (now : ℝ) :
    Except Unit (CState × Twist) :=
  let s1 := controlState s now
  let tw := controlTwist s now
  if (computeErrors s).2.2 < s.robot_radius then
    match get_new_waypoint { s1 with need_waypoint := true } with
    | .error u => .error u
    | .ok s2 => .ok (s2, tw)
  else .ok (s1, tw)

/-- odom_callback(msg): refreshes the odometry slots, then runs control()
only when need_waypoint is false; while awaiting a waypoint nothing is
computed or published. -/
noncomputable def odom_callback (s : CState) (m : Odom) (now : ℝ) :
    Except Unit (CState × Option Twist) :=
  let s1 := { s with odom := m }
  if s1.need_waypoint then .ok (s1, none)
  else
    match control s1 now with
    | .error u => .error u
    | .ok (s2, tw) => .ok (s2, some tw)

/-- states_callback(msg): resets i to 0, stores the incoming list, pops its
first entry into the current waypoint slot (IndexError on an empty list)
and clears need_waypoint. -/
def states_callback (s : CState) (ws : List Waypoint) : Except Unit CState :=
  match ws with
  | [] => .error ()
  | w :: rest =>
    .ok { s with
      i := 0
      states := rest
      waypoint := w
      need_waypoint := false }

/-- param_callback(config): unconditionally copies every supplied tunable
into the live controller and PID fields; robot_radius, verbose and the two
slew deltas are reset to their hard-coded values.  No validation is
performed and nothing is rejected. -/
def param_callback (s : CState) (c : Config) : CState :=
  { s with
    angular_tolerance := c.angular_tolerance
    robot_radius := 0.2
    rotate_lin_vel := c.rotate_lin_vel
    verbose := false
    pid_angular := { s.pid_angular with
      kp := c.angular_kp
      ki := c.angular_ki
      kd := c.angular_kd
      min_integral := c.angular_min_integral
      max_integral := c.angular_max_integral
      min_output := c.angular_min_output
      max_output := c.angular_max_output
      delta := 0.01 }
    pid_linear := { s.pid_linear with
      kp := c.linear_kp
      ki := c.linear_ki
      kd := c.linear_kd
      min_integral := c.linear_min_integral
      max_integral := c.linear_max_integral
      min_output := c.linear_min_output
      max_output := c.linear_max_output
      delta := 0.05 } }

/-- stop(): publishes the zero/zero twist. -/
def stop (s : CState) : CState × Twist :=
  ({ s with twist := { linear := 0, angular := 0 } },
    { linear := 0, angular := 0 })

/-- The attribute values set by the constructor: need_waypoint true, the
waypoint slot a copy of the (uninitialised) odometry array, tolerances 0.2,
and the two regulators with their construction-time gains and limits,
reset at construction time t0.  The odometry slots start as np.empty
garbage, modelled by the arbitrary parameter odom0. -/
def initState (odom0 : Odom) (t0 : ℝ) : CState :=
  { prev_linear_vel := 0
    prev_angular_vel := 0
    twist := { linear := 0, angular := 0 }
    need_waypoint := true
    odom := odom0
    waypoint :=
      { x := odom0.x, y := odom0.y, yaw := odom0.yaw,
        ux := odom0.v, utheta := odom0.w }
    rotate_lin_vel := 0.2
    verbose := true
    angular_tolerance := 0.2
    robot_radius := 0.2
    pid_angular :=
      { kp := 1, kd := 0, ki := 0, min_output := -1, max_output := 1,
        delta := 0.01, min_integral := 0, max_integral := 0, integral := 0,
        previous_output := 0, previous_error := none, previous_time := t0 }
    pid_linear :=
      { kp := 1, kd := 0, ki := 0, min_output := -0.5, max_output := 0.5,
        delta := 0.05, min_integral := 0, max_integral := 0, integral := 0,
        previous_output := 0, previous_error := none, previous_time := t0 }
    i := 0
    states := [] }

/-- The serialized external events that drive the node: an odometry
message (with the time at which the resulting PID updates read the clock),
a waypoint-list message, and a dynamic_reconfigure update. -/
inductive Event where
  | odomEv (m : Odom) (now : ℝ)
  | statesEv (ws : List Waypoint)
  | paramEv (c : Config)

/-- Dispatch of one external event to its callback; the optional Twist is
the command published during the event, if any. -/
noncomputable def step (s : CState) : Event → Except Unit (CState × Option Twist)
  | .odomEv m now => odom_callback s m now
  | .statesEv ws =>
    match states_callback s ws with
    | .error u => .error u
    | .ok s1 => .ok (s1, none)
  | .paramEv c => .ok (param_callback s c, none)

/-- Runs a serialized event trace, collecting every published command; an
uncaught exception aborts the trace. -/
noncomputable def runEvents (s : CState) :
    List Event → Except Unit (CState × List Twist)
  | [] => .ok (s, [])
  | e :: rest =>
    match step s e with
    | .error u => .error u
    | .ok (s1, out) =>
      match runEvents s1 rest with
      | .error u => .error u
      | .ok (s2, outs) => .ok (s2, out.toList ++ outs)

/-- A controller state whose waypoint lies directly ahead along the x axis
with zero yaw. -/
def sAhead : CState :=
  { initState { x := 0, y := 0, yaw := 0, v := 0, w := 0 } 0 with
    need_waypoint := false
    waypoint := { x := 3, y := 0, yaw := 0, ux := 0, utheta := 0 } }

/-- A controller state whose waypoint lies directly behind along the x axis
with zero yaw. -/
def sBehind : CState :=
  { initState { x := 0, y := 0, yaw := 0, v := 0, w := 0 } 0 with
    need_waypoint := false
    waypoint := { x := -3, y := 0, yaw := 0, ux := 0, utheta := 0 } }

/-- A concrete odometry message. -/
def odomW : Odom := { x := 1, y := 2, yaw := 3, v := 4, w := 5 }

/-- A concrete configuration update. -/
def cfgW : Config :=
  { angular_tolerance := 0.3, rotate_lin_vel := 0.4,
    angular_kp := 1, angular_ki := 0, angular_kd := 0,
    angular_min_integral := -1, angular_max_integral := 1,
    angular_min_output := -1, angular_max_output := 1,
    linear_kp := 1, linear_ki := 0, linear_kd := 0,
    linear_min_integral := -1, linear_max_integral := 1,
    linear_min_output := -1, linear_max_output := 1 }

/-- A concrete trace of two odometry updates around a configuration
update, with no waypoint list. -/
def evsW : List Event :=
  [Event.odomEv odomW 1, Event.paramEv cfgW, Event.odomEv odomW 2]

/-- A concrete controller state as constructed at startup. -/
def s8 : CState := initState { x := 0, y := 0, yaw := 0, v := 0, w := 0 } 0

/-- A configuration update carrying an inverted linear output limit pair:
linear_min_output = 1 > -1 = linear_max_output. -/
def cfgBad : Config :=
  { angular_tolerance := 0.2, rotate_lin_vel := 0.2,
    angular_kp := 1, angular_ki := 0, angular_kd := 0,
    angular_min_integral := 0, angular_max_integral := 0,
    angular_min_output := -1, angular_max_output := 1,
    linear_kp := 1, linear_ki := 0, linear_kd := 0,
    linear_min_integral := 0, linear_max_integral := 0,
    linear_min_output := 1, linear_max_output := -1 }

/-- A tracking state with zero yaw whose waypoint lies 5 m directly behind
the robot, so the bearing error is pi. -/
def sC4 : CState :=
  { initState { x := 0, y := 0, yaw := 0, v := 0, w := 0 } 0 with
    need_waypoint := false
    waypoint := { x := -5, y := 0, yaw := 0, ux := 0, utheta := 0 }
    rotate_lin_vel := 7 }

/-- A tracking state whose current waypoint coincides with the robot
position (distance 0, inside the arrival radius) while the remaining
waypoint deque is empty: the arrival branch fires with nothing left to
pop. -/
def sC1 : CState :=
  { initState { x := 1, y := 2, yaw := 0, v := 0, w := 0 } 0 with
    need_waypoint := false }

/-- A tracking state with rotate_lin_vel = 10 and the default linear PID
(delta = 0.05), whose waypoint lies 5 m behind the robot. -/
def s9 : CState :=
  { initState { x := 0, y := 0, yaw := 0, v := 0, w := 0 } 0 with
    need_waypoint := false
    waypoint := { x := -5, y := 0, yaw := 0, ux := 0, utheta := 0 }
    rotate_lin_vel := 10 }

/-- First odometry message: robot at the origin, waypoint behind. -/
def m9a : Odom := { x := 0, y := 0, yaw := 0, v := 0, w := 0 }

/-- Second odometry message: robot at x = -10, waypoint now 5 m ahead. -/
def m9b : Odom := { x := -10, y := 0, yaw := 0, v := 0, w := 0 }

/-- The state seen by the first control cycle. -/
def sA9 : CState := { s9 with odom := m9a }

/-- The state after the first control cycle. -/
noncomputable def s1C9 : CState := controlState sA9 1

/-- The state seen by the second control cycle. -/
noncomputable def sB9 : CState := { s1C9 with odom := m9b }

/-- Any np.clip result is bounded above by the upper bound. -/
theorem clip_le {α : Type} [LinearOrder α] (x lo hi : α) : clip x lo hi ≤ hi :=
  min_le_right _ _

/-- When the bounds are ordered, the np.clip result is at least the lower
bound. -/
theorem le_clip {α : Type} [LinearOrder α] {lo hi : α} (x : α) (h : lo ≤ hi) :
    lo ≤ clip x lo hi :=
  le_min (le_max_right x lo) h

/-- Clipping to a degenerate interval [m, m] always returns m. -/
theorem clip_same {α : Type} [LinearOrder α] (x m : α) : clip x m m = m :=
  min_eq_right (le_max_right x m)

/-- Clipping into a radius-d interval around c lands within d of c,
provided d is nonnegative. -/
theorem abs_clip_sub_le {α : Type} [LinearOrderedField α] (x c d : α)
    (hd : 0 ≤ d) : |clip x (c - d) (c + d) - c| ≤ d := by
  rw [abs_sub_le_iff]
  constructor
  · have h := clip_le x (c - d) (c + d)
    linarith
  · have h := le_clip x (show c - d ≤ c + d by linarith)
    linarith

/-- The update operation never changes the configuration fields. -/
theorem update_config {α : Type} [LinearOrderedField α] (p : PID α)
    (e now : α) :
    (p.update e now).1.kp = p.kp ∧ (p.update e now).1.kd = p.kd ∧
    (p.update e now).1.ki = p.ki ∧
    (p.update e now).1.min_output = p.min_output ∧
    (p.update e now).1.max_output = p.max_output ∧
    (p.update e now).1.delta = p.delta ∧
    (p.update e now).1.min_integral = p.min_integral ∧
    (p.update e now).1.max_integral = p.max_integral :=
  ⟨rfl, rfl, rfl, rfl, rfl, rfl, rfl, rfl⟩

/-- The stored previous_output after an update is the returned output. -/
theorem update_previous_output {α : Type} [LinearOrderedField α] (p : PID α)
    (e now : α) : (p.update e now).1.previous_output = (p.update e now).2 :=
  rfl

/-- Because the source calls np.clip(integral, max_integral, max_integral),
the stored integral after any update equals max_integral. -/
theorem integral_after_update {α : Type} [LinearOrderedField α] (p : PID α)
    (e now : α) : (p.update e now).1.integral = p.max_integral := by
  simp [PID.update, clip_same]

/-- The returned output of any update is the slew clip of a value to the
interval [previous_output - delta, previous_output + delta]. -/
theorem update_slew {α : Type} [LinearOrderedField α] (p : PID α) (e now : α)
    (h : 0 ≤ p.delta) : |(p.update e now).2 - p.previous_output| ≤ p.delta := by
  simp only [PID.update]
  exact abs_clip_sub_le _ _ _ h

/-- C2: the claim fails on the code.  With min_integral = -1,
max_integral = 1, stored integral 0, error 0 and dt = 1, the claimed value of
the new integral is clip(0 + 0*1, -1, 1) = 0, but the source passes
max_integral as both np.clip bounds, so the stored integral after the call is
1 (= max_integral), not 0. -/
theorem C2_integral_clip_bug :
    (pidC2.update 0 1).1.integral = 1 ∧
    clip (pidC2.integral + 0 * (1 - pidC2.previous_time))
      pidC2.min_integral pidC2.max_integral = 0 := by
  constructor
  · rw [integral_after_update]; rfl
  · norm_num [pidC2, clip]

/-- C3 counterexample: with max_output_delta = -1 (an admissible
configuration value, since the regulator performs no validation), two
consecutive updates with error 5 at times 1 and 2 return -1 and -2, whose
difference 1 is not bounded by delta = -1. -/
theorem C3_slew_counterexample :
    ¬ |((pidC3.update 5 1).1.update 5 2).2 - (pidC3.update 5 1).2|
        ≤ pidC3.delta := by
  norm_num [pidC3, PID.update, clip]

/-- C3 (amended): provided max_output_delta is nonnegative, the outputs of
any two consecutive update calls differ by at most max_output_delta, for all
gains, limits, errors and times. -/
theorem C3_slew_amended {α : Type} [LinearOrderedField α] (p : PID α)
    (e1 t1 e2 t2 : α) (h : 0 ≤ p.delta) :
    |((p.update e1 t1).1.update e2 t2).2 - (p.update e1 t1).2| ≤ p.delta := by
  have hcfg : (p.update e1 t1).1.delta = p.delta := rfl
  have hprev : (p.update e1 t1).1.previous_output = (p.update e1 t1).2 := rfl
  have := update_slew (p.update e1 t1).1 e2 t2 (by rw [hcfg]; exact h)
  rwa [hprev, hcfg] at this

/-- C3 witness: the amended slew bound instantiated at a concrete rational
configuration and input sequence. -/
theorem C3_slew_amended_witness :
    (0 : ℚ) ≤ pidC3w.delta ∧
    |((pidC3w.update 5 1).1.update 5 2).2 - (pidC3w.update 5 1).2|
      ≤ pidC3w.delta :=
  ⟨by norm_num [pidC3w], C3_slew_amended pidC3w 5 1 5 2 (by norm_num [pidC3w])⟩

/-- C6: when dt = now - previous_time is not positive, the derivative term
contributes nothing (the output is independent of kd), while the
proportional term, the integral accumulation as the source computes it, the
output clamp and the slew clamp still apply, and previous_time is still
advanced to now with previous_error recorded. -/
theorem C6_nonpositive_dt {α : Type} [LinearOrderedField α] (p : PID α)
    (e now c : α) (h : now - p.previous_time ≤ 0) :
    (p.update e now).2 = ({ p with kd := c }.update e now).2 ∧
    (p.update e now).2 =
      clip (clip (p.kp * e +
          p.ki * clip (p.integral + e * (now - p.previous_time))
            p.max_integral p.max_integral + 0)
        p.min_output p.max_output)
        (p.previous_output - p.delta) (p.previous_output + p.delta) ∧
    (p.update e now).1.previous_time = now ∧
    (p.update e now).1.previous_error = some e := by
  have hnot : ¬ 0 < now - p.previous_time := not_lt.mpr h
  refine ⟨?_, ?_, rfl, rfl⟩
  · simp only [PID.update, if_neg hnot]
  · simp only [PID.update, if_neg hnot]

/-- C6 witness: at time 3 with previous_time 5 (dt = -2 ≤ 0), the output of
pidC6 (kd = 9) coincides with the output of the same regulator with kd
replaced by 7, and previous_time is advanced to 3. -/
theorem C6_nonpositive_dt_witness :
    (3 : ℚ) - pidC6.previous_time ≤ 0 ∧
    (pidC6.update 2 3).2 = ({ pidC6 with kd := 7 }.update 2 3).2 ∧
    (pidC6.update 2 3).1.previous_time = 3 :=
  ⟨by norm_num [pidC6],
    (C6_nonpositive_dt pidC6 2 3 7 (by norm_num [pidC6])).1,
    (C6_nonpositive_dt pidC6 2 3 7 (by norm_num [pidC6])).2.2.1⟩

/-- Clipping 0 into an interval containing 0 returns 0. -/
theorem clip_zero {lo hi : ℝ} (hlo : lo ≤ 0) (hhi : 0 ≤ hi) :
    clip 0 lo hi = 0 := by
  simp only [clip]
  rw [max_eq_left hlo, min_eq_left hhi]

/-- The output of the (n+1)-st zero-error iteration call is the output of
the update applied to the n-th iterate. -/
theorem iterOut_succ (p : PID ℝ) (t : ℕ → ℝ) (n : ℕ) :
    p.iterOut t (n + 1) = ((p.iter t n).update 0 (t n)).2 := by
  simp only [PID.iterOut, PID.iter, update_previous_output]

/-- With zero error, ki = 0 and kd = 0, the update output is the pure
double clip of 0. -/
theorem update_zero_out (q : PID ℝ) (s : ℝ) (hki : q.ki = 0)
    (hkd : q.kd = 0) :
    (q.update 0 s).2 =
      clip (clip 0 q.min_output q.max_output)
        (q.previous_output - q.delta) (q.previous_output + q.delta) := by
  simp [PID.update, hki, hkd]

/-- The absolute value of 0 clipped into the radius-d interval around c is
exactly max (|c| - d) 0, for nonnegative d. -/
theorem abs_clip_zero (c d : ℝ) (hd : 0 ≤ d) :
    |clip 0 (c - d) (c + d)| = max (|c| - d) 0 := by
  rcases le_total d c with hdc | hcd
  · have h0 : (0 : ℝ) ≤ c - d := by linarith
    simp only [clip]
    rw [max_eq_right h0, min_eq_left (by linarith : c - d ≤ c + d),
      abs_of_nonneg h0, abs_of_nonneg (by linarith : (0 : ℝ) ≤ c),
      max_eq_left h0]
  · rcases le_total c (-d) with hc2 | hc2
    · have h1 : c + d ≤ 0 := by linarith
      simp only [clip]
      rw [max_eq_left (by linarith : c - d ≤ 0), min_eq_right h1,
        abs_of_nonpos h1, abs_of_nonpos (by linarith : c ≤ 0),
        max_eq_left (by linarith : (0 : ℝ) ≤ -c - d)]
      ring
    · have habs : |c| ≤ d := abs_le.mpr ⟨by linarith, hcd⟩
      simp only [clip]
      rw [max_eq_left (by linarith : c - d ≤ 0),
        min_eq_left (by linarith : (0 : ℝ) ≤ c + d), abs_zero,
        max_eq_right (by linarith : |c| - d ≤ 0)]

/-- The zero-error iteration never changes the configuration fields. -/
theorem iter_cfg (p : PID ℝ) (t : ℕ → ℝ) (n : ℕ) :
    (p.iter t n).ki = p.ki ∧ (p.iter t n).kd = p.kd ∧
    (p.iter t n).min_output = p.min_output ∧
    (p.iter t n).max_output = p.max_output ∧
    (p.iter t n).delta = p.delta := by
  induction n with
  | zero => exact ⟨rfl, rfl, rfl, rfl, rfl⟩
  | succ n ih => exact ih

/-- One step of the zero-error iteration, for a regulator with ki = kd = 0
and a clamp range containing 0: the next output is 0 clipped to the slew
interval around the previous output. -/
theorem iterOut_step (p : PID ℝ) (t : ℕ → ℝ) (hki : p.ki = 0)
    (hkd : p.kd = 0) (hmin : p.min_output ≤ 0) (hmax : 0 ≤ p.max_output)
    (n : ℕ) :
    p.iterOut t (n + 1) =
      clip 0 (p.iterOut t n - p.delta) (p.iterOut t n + p.delta) := by
  have hc := iter_cfg p t n
  rw [iterOut_succ, update_zero_out _ _ (by rw [hc.1, hki])
      (by rw [hc.2.1, hkd]),
    clip_zero (by rw [hc.2.2.1]; exact hmin) (by rw [hc.2.2.2.1]; exact hmax),
    hc.2.2.2.2]
  rfl

/-- Every output of the zero-error iteration of pidC10 equals 1. -/
theorem pidC10_out (n : ℕ) : pidC10.iterOut tC10 (n + 1) = 1 := by
  induction n with
  | zero =>
    have hc := iter_cfg pidC10 tC10 0
    rw [iterOut_succ, update_zero_out _ _ (hc.1.trans rfl) (hc.2.1.trans rfl),
      hc.2.2.1, hc.2.2.2.1, hc.2.2.2.2]
    have hprev : (pidC10.iter tC10 0).previous_output = 0 := by
      simp [PID.iter, pidC10]
    rw [hprev]
    norm_num [pidC10, clip]
  | succ n ih =>
    have hc := iter_cfg pidC10 tC10 (n + 1)
    rw [iterOut_succ, update_zero_out _ _ (hc.1.trans rfl) (hc.2.1.trans rfl),
      hc.2.2.1, hc.2.2.2.1, hc.2.2.2.2]
    have hprev : (pidC10.iter tC10 (n + 1)).previous_output = 1 := ih
    rw [hprev]
    norm_num [pidC10, clip]

/-- C10 counterexample: a regulator with ki = 0 and kd = 0 whose zero-error
output sequence never reaches 0 (it is constantly 1 from the first call on),
because min_output = 1 keeps 0 outside the clamp range. -/
theorem C10_convergence_counterexample :
    pidC10.ki = 0 ∧ pidC10.kd = 0 ∧
    ¬ ∃ N, ∀ n, N ≤ n → pidC10.iterOut tC10 n = 0 := by
  refine ⟨rfl, rfl, ?_⟩
  rintro ⟨N, hN⟩
  have h1 := hN (N + 1) (Nat.le_succ N)
  rw [pidC10_out N] at h1
  norm_num at h1

/-- C10 (amended): with ki = 0, kd = 0, a clamp range containing 0
(min_output ≤ 0 ≤ max_output) and a positive slew limit, the zero-error
output sequence moves toward 0 by at most delta per call, is nonincreasing
in magnitude, and is exactly 0 from some call index on. -/
theorem C10_converges_amended (p : PID ℝ) (t : ℕ → ℝ) (hki : p.ki = 0)
    (hkd : p.kd = 0) (hmin : p.min_output ≤ 0) (hmax : 0 ≤ p.max_output)
    (hd : 0 < p.delta) :
    (∀ n, |p.iterOut t (n + 1) - p.iterOut t n| ≤ p.delta ∧
      |p.iterOut t (n + 1)| ≤ |p.iterOut t n|) ∧
    ∃ N, ∀ n, N ≤ n → p.iterOut t n = 0 := by
  have hstep := iterOut_step p t hki hkd hmin hmax
  constructor
  · intro n
    rw [hstep n]
    refine ⟨abs_clip_sub_le 0 _ _ hd.le, ?_⟩
    rw [abs_clip_zero _ _ hd.le]
    exact max_le (sub_le_self _ hd.le) (abs_nonneg _)
  · have hbound : ∀ n : ℕ,
        |p.iterOut t n| ≤ max (|p.iterOut t 0| - n * p.delta) 0 := by
      intro n
      induction n with
      | zero => simp
      | succ n ih =>
        have h1 : |p.iterOut t (n + 1)| = max (|p.iterOut t n| - p.delta) 0 := by
          rw [hstep n, abs_clip_zero _ _ hd.le]
        rw [h1]
        have h2 : |p.iterOut t n| - p.delta ≤
            max (|p.iterOut t 0| - n * p.delta) 0 - p.delta := by linarith
        refine le_trans (max_le_max h2 le_rfl) ?_
        rw [← max_sub_sub_right]
        push_cast
        have h3 : |p.iterOut t 0| - (n : ℝ) * p.delta - p.delta =
            |p.iterOut t 0| - ((n : ℝ) + 1) * p.delta := by ring
        apply max_le (max_le ?_ ?_) (le_max_right _ _)
        · rw [h3]
          exact le_max_left _ _
        · have h4 : (0 : ℝ) ≤
              max (|p.iterOut t 0| - ((n : ℝ) + 1) * p.delta) 0 :=
            le_max_right _ _
          linarith
    obtain ⟨N, hN⟩ := exists_nat_ge (|p.iterOut t 0| / p.delta)
    refine ⟨N, fun n hn => ?_⟩
    have hcast : (N : ℝ) ≤ n := Nat.cast_le.mpr hn
    have h0 : |p.iterOut t 0| ≤ (n : ℝ) * p.delta := by
      have h1 := (div_le_iff₀ hd).mp hN
      have h2 : (N : ℝ) * p.delta ≤ (n : ℝ) * p.delta :=
        mul_le_mul_of_nonneg_right hcast hd.le
      linarith
    have hb := hbound n
    rw [max_eq_right (by linarith)] at hb
    exact abs_nonpos_iff.mp hb

/-- C10 witness: the amended convergence statement instantiated at a
concrete regulator. -/
theorem C10_converges_amended_witness :
    pidC10w.ki = 0 ∧ pidC10w.kd = 0 ∧ pidC10w.min_output ≤ 0 ∧
    (0 : ℝ) ≤ pidC10w.max_output ∧ 0 < pidC10w.delta ∧
    ∃ N, ∀ n, N ≤ n → pidC10w.iterOut tC10 n = 0 :=
  ⟨rfl, rfl, by norm_num [pidC10w], by norm_num [pidC10w],
    by norm_num [pidC10w],
    (C10_converges_amended pidC10w tC10 rfl rfl (by norm_num [pidC10w])
      (by norm_num [pidC10w]) (by norm_num [pidC10w])).2⟩

/-- arctan2 of a zero lateral error and a positive forward error is 0. -/
theorem atan2_zero_of_pos {x : ℝ} (hx : 0 < x) : atan2 0 x = 0 := by
  simp [atan2, hx]

/-- arctan2 of a zero lateral error and a negative forward error is pi. -/
theorem atan2_zero_of_neg {x : ℝ} (hx : x < 0) : atan2 0 x = Real.pi := by
  have h1 : ¬ 0 < x := by linarith
  simp [atan2, h1, hx]

/-- With zero yaw and a waypoint at the same world y as the robot, the
frame transform degenerates to the x axis. -/
theorem computeErrors_flat (s : CState) (hyaw : s.odom.yaw = 0)
    (hy : s.waypoint.y = s.odom.y) :
    computeErrors s = (atan2 0 (s.waypoint.x - s.odom.x),
      Real.tanh (s.waypoint.x - s.odom.x),
      Real.sqrt ((s.waypoint.x - s.odom.x) ^ 2)) := by
  simp [computeErrors, hyaw, hy]

/-- C5: the frame transform returns angular_error = arctan2(lateral,
forward) and linear_error = tanh(forward) for the robot-frame rotation of
the world delta by yaw; a waypoint directly ahead with yaw 0 gives
angular_error 0, and a waypoint directly behind gives angular error of
magnitude pi. -/
theorem C5_frame_transform (s : CState) :
    (computeErrors s).1 =
      atan2 (-Real.sin s.odom.yaw * (s.waypoint.x - s.odom.x) +
          Real.cos s.odom.yaw * (s.waypoint.y - s.odom.y))
        (Real.cos s.odom.yaw * (s.waypoint.x - s.odom.x) +
          Real.sin s.odom.yaw * (s.waypoint.y - s.odom.y)) ∧
    (computeErrors s).2.1 =
      Real.tanh (Real.cos s.odom.yaw * (s.waypoint.x - s.odom.x) +
        Real.sin s.odom.yaw * (s.waypoint.y - s.odom.y)) ∧
    (s.odom.yaw = 0 → s.waypoint.y = s.odom.y → s.odom.x < s.waypoint.x →
      (computeErrors s).1 = 0) ∧
    (s.odom.yaw = 0 → s.waypoint.y = s.odom.y → s.waypoint.x < s.odom.x →
      |(computeErrors s).1| = Real.pi) := by
  refine ⟨rfl, rfl, ?_, ?_⟩
  · intro hyaw hy hx
    rw [computeErrors_flat s hyaw hy]
    exact atan2_zero_of_pos (by linarith)
  · intro hyaw hy hx
    rw [computeErrors_flat s hyaw hy]
    show |atan2 0 (s.waypoint.x - s.odom.x)| = Real.pi
    rw [atan2_zero_of_neg (by linarith)]
    exact abs_of_pos Real.pi_pos

/-- C5 witness: the ahead and behind conclusions at concrete states. -/
theorem C5_frame_transform_witness :
    (computeErrors sAhead).1 = 0 ∧ |(computeErrors sBehind).1| = Real.pi :=
  ⟨(C5_frame_transform sAhead).2.2.1 rfl rfl
      (by norm_num [sAhead, initState]),
    (C5_frame_transform sBehind).2.2.2 rfl rfl
      (by norm_num [sBehind, initState])⟩

/-- Running a trace that contains no waypoint-list message from a state
still awaiting its first waypoint publishes nothing and leaves the
controller awaiting. -/
theorem runEvents_no_states (evs : List Event) :
    ∀ s : CState, s.need_waypoint = true →
    (∀ e ∈ evs, ∀ ws, e ≠ Event.statesEv ws) →
    ∃ s2, runEvents s evs = .ok (s2, []) ∧ s2.need_waypoint = true := by
  induction evs with
  | nil => exact fun s hs _ => ⟨s, rfl, hs⟩
  | cons e rest ih =>
    intro s hs hno
    cases e with
    | odomEv m now =>
      have hstep : step s (.odomEv m now) =
          .ok ({ s with odom := m }, none) := by
        simp [step, odom_callback, hs]
      obtain ⟨s2, hrun, hs2⟩ := ih { s with odom := m } hs
        (fun e he ws => hno e (List.mem_cons_of_mem _ he) ws)
      exact ⟨s2, by simp [runEvents, hstep, hrun], hs2⟩
    | statesEv ws => exact absurd rfl (hno _ (List.mem_cons_self _ _) ws)
    | paramEv c =>
      have hstep : step s (.paramEv c) =
          .ok (param_callback s c, none) := rfl
      have hpc : (param_callback s c).need_waypoint = true := hs
      obtain ⟨s2, hrun, hs2⟩ := ih (param_callback s c) hpc
        (fun e he ws => hno e (List.mem_cons_of_mem _ he) ws)
      exact ⟨s2, by simp [runEvents, hstep, hrun], hs2⟩

/-- C7: the controller starts with need_waypoint = true, and any event
trace without a waypoint-list message publishes no velocity command. -/
theorem C7_awaiting_no_command (odom0 : Odom) (t0 : ℝ) (evs : List Event)
    (h : ∀ e ∈ evs, ∀ ws, e ≠ Event.statesEv ws) :
    (initState odom0 t0).need_waypoint = true ∧
    ∃ s2, runEvents (initState odom0 t0) evs = .ok (s2, []) := by
  obtain ⟨s2, hrun, -⟩ := runEvents_no_states evs (initState odom0 t0) rfl h
  exact ⟨rfl, s2, hrun⟩

/-- C7 witness: on the concrete waypoint-free trace, nothing is
published. -/
theorem C7_awaiting_no_command_witness :
    (∀ e ∈ evsW, ∀ ws, e ≠ Event.statesEv ws) ∧
    ∃ s2, runEvents (initState odomW 0) evsW = .ok (s2, []) := by
  have h : ∀ e ∈ evsW, ∀ ws, e ≠ Event.statesEv ws := by
    intro e he ws
    simp only [evsW, List.mem_cons, List.not_mem_nil, or_false] at he
    rcases he with h1 | h1 | h1 <;> subst h1 <;> simp
  exact ⟨h, (C7_awaiting_no_command odomW 0 evsW h).2⟩

/-- C8 counterexample: param_callback applied to an inverted limit pair is
not rejected; it overwrites the previously active min_output (-0.5) with
the invalid value 1. -/
theorem C8_config_counterexample :
    cfgBad.linear_max_output < cfgBad.linear_min_output ∧
    s8.pid_linear.min_output = -0.5 ∧
    (param_callback s8 cfgBad).pid_linear.min_output = 1 ∧
    (param_callback s8 cfgBad).pid_linear.min_output ≠
      s8.pid_linear.min_output := by
  refine ⟨by norm_num [cfgBad], rfl, rfl, ?_⟩
  norm_num [param_callback, s8, cfgBad, initState]

/-- C8 (amended): configuration updates are applied unconditionally at
config-apply time; even when the supplied pair has min_output > max_output,
every supplied field overwrites the active configuration. -/
theorem C8_config_applied_amended (s : CState) (c : Config)
    (_h : c.linear_max_output < c.linear_min_output) :
    (param_callback s c).pid_linear.min_output = c.linear_min_output ∧
    (param_callback s c).pid_linear.max_output = c.linear_max_output ∧
    (param_callback s c).pid_linear.kp = c.linear_kp ∧
    (param_callback s c).pid_angular.min_output = c.angular_min_output ∧
    (param_callback s c).pid_angular.max_output = c.angular_max_output ∧
    (param_callback s c).angular_tolerance = c.angular_tolerance ∧
    (param_callback s c).rotate_lin_vel = c.rotate_lin_vel :=
  ⟨rfl, rfl, rfl, rfl, rfl, rfl, rfl⟩

/-- C8 witness: the amended statement at the concrete inverted pair. -/
theorem C8_config_applied_witness :
    cfgBad.linear_max_output < cfgBad.linear_min_output ∧
    (param_callback s8 cfgBad).pid_linear.min_output =
      cfgBad.linear_min_output :=
  ⟨by norm_num [cfgBad],
    (C8_config_applied_amended s8 cfgBad (by norm_num [cfgBad])).1⟩

/-- When the arrival check does not fire, control() succeeds and publishes
the computed twist. -/
theorem control_no_arrival (s : CState) (now : ℝ)
    (h : ¬ (computeErrors s).2.2 < s.robot_radius) :
    control s now = .ok (controlState s now, controlTwist s now) := by
  simp only [control]
  rw [if_neg h]

/-- C4: on any control cycle where |angular_error| exceeds
angular_tolerance and a command is published, the published linear
component is rotate_lin_vel (not the linear PID output), while the angular
component is still the angular PID output. -/
theorem C4_heading_override (s : CState) (now : ℝ) (s2 : CState) (tw : Twist)
    (hok : control s now = .ok (s2, tw))
    (h : s.angular_tolerance < |(computeErrors s).1|) :
    tw.linear = s.rotate_lin_vel ∧
    tw.angular = (s.pid_angular.update (computeErrors s).1 now).2 := by
  have htw : controlTwist s now =
      { linear := s.rotate_lin_vel,
        angular := (s.pid_angular.update (computeErrors s).1 now).2 } := by
    simp only [controlTwist]
    rw [if_pos h]
  simp only [control] at hok
  split at hok
  · split at hok
    · exact absurd hok (by simp)
    · rw [Except.ok.injEq, Prod.mk.injEq] at hok
      rw [← hok.2, htw]
      exact ⟨rfl, rfl⟩
  · rw [Except.ok.injEq, Prod.mk.injEq] at hok
    rw [← hok.2, htw]
    exact ⟨rfl, rfl⟩

/-- C4 witness: at the concrete state sC4 the cycle publishes, the heading
condition holds, and the published linear command is rotate_lin_vel = 7. -/
theorem C4_heading_override_witness :
    ∃ s2 tw, control sC4 1 = .ok (s2, tw) ∧
      sC4.angular_tolerance < |(computeErrors sC4).1| ∧
      tw.linear = sC4.rotate_lin_vel := by
  have h1 : (computeErrors sC4).1 = Real.pi := by
    rw [computeErrors_flat sC4 rfl rfl]
    exact atan2_zero_of_neg (by norm_num [sC4, initState])
  have h3 : (computeErrors sC4).2.2 = 5 := by
    rw [computeErrors_flat sC4 rfl rfl]
    show Real.sqrt ((sC4.waypoint.x - sC4.odom.x) ^ 2) = 5
    rw [Real.sqrt_sq_eq_abs]
    norm_num [sC4, initState]
  have hfar : ¬ (computeErrors sC4).2.2 < sC4.robot_radius := by
    rw [h3]
    norm_num [sC4, initState]
  have hAng : sC4.angular_tolerance < |(computeErrors sC4).1| := by
    rw [h1, abs_of_pos Real.pi_pos]
    have hpi := Real.pi_gt_three
    have htol : sC4.angular_tolerance = 0.2 := rfl
    rw [htol]
    linarith
  exact ⟨controlState sC4 1, controlTwist sC4 1, control_no_arrival sC4 1 hfar,
    hAng,
    (C4_heading_override sC4 1 _ _ (control_no_arrival sC4 1 hfar) hAng).1⟩

/-- C1: at the failing input (arrival with an exhausted queue) control()
does not recover: states.popleft() raises IndexError, modelled as the
error result — no transition to awaiting plus stop command, but an uncaught
exception, contradicting the claim. -/
theorem C1_queue_exhaustion_crash : control sC1 1 = .error () := by
  have h3 : (computeErrors sC1).2.2 = 0 := by
    rw [computeErrors_flat sC1 rfl rfl]
    show Real.sqrt ((sC1.waypoint.x - sC1.odom.x) ^ 2) = 0
    rw [Real.sqrt_sq_eq_abs]
    norm_num [sC1, initState]
  have hnear : (computeErrors sC1).2.2 < sC1.robot_radius := by
    rw [h3]
    norm_num [sC1, initState]
  simp only [control]
  rw [if_pos hnear]
  rfl

/-- On a tracking-state odometry event whose cycle does not reach the
arrival radius, the callback publishes the computed twist. -/
theorem odom_callback_tracking (s s' : CState) (m : Odom) (now : ℝ)
    (hs' : s' = { s with odom := m })
    (hnw : s.need_waypoint = false)
    (hfar : ¬ (computeErrors s').2.2 < s'.robot_radius) :
    odom_callback s m now =
      .ok (controlState s' now, some (controlTwist s' now)) := by
  have h1 : control s' now = .ok (controlState s' now, controlTwist s' now) :=
    control_no_arrival s' now hfar
  simp only [odom_callback, ← hs']
  rw [hnw, if_neg (show ¬ (false = true) by simp), h1]

/-- C9: the slew limit lives on the regulator's own previous_output, which
records the pre-override PID output; the heading override writes the
published linear command after the PID update without feeding back.  On
this concrete two-cycle trace (override engaged, then disengaged) the two
published linear commands are 10 and a value of magnitude at most 0.1, so
consecutive published linear commands differ by far more than the linear
regulator's max_output_delta of 0.05. -/
theorem C9_published_linear_not_slew_limited :
    ∃ s1 tw1 s2 tw2,
      odom_callback s9 m9a 1 = .ok (s1, some tw1) ∧
      odom_callback s1 m9b 2 = .ok (s2, some tw2) ∧
      s9.pid_linear.delta = 0.05 ∧
      s1.pid_linear.delta = 0.05 ∧
      tw1.linear = 10 ∧
      s9.pid_linear.delta < |tw2.linear - tw1.linear| := by
  have h1A : (computeErrors sA9).1 = Real.pi := by
    rw [computeErrors_flat sA9 rfl rfl]
    exact atan2_zero_of_neg (by norm_num [sA9, s9, m9a, initState])
  have h3A : (computeErrors sA9).2.2 = 5 := by
    rw [computeErrors_flat sA9 rfl rfl]
    show Real.sqrt ((sA9.waypoint.x - sA9.odom.x) ^ 2) = 5
    rw [Real.sqrt_sq_eq_abs]
    norm_num [sA9, s9, m9a, initState]
  have hfarA : ¬ (computeErrors sA9).2.2 < sA9.robot_radius := by
    rw [h3A]
    norm_num [sA9, s9, initState]
  have hcb1 : odom_callback s9 m9a 1 =
      .ok (controlState sA9 1, some (controlTwist sA9 1)) :=
    odom_callback_tracking s9 sA9 m9a 1 rfl rfl hfarA
  have hcondA : sA9.angular_tolerance < |(computeErrors sA9).1| := by
    rw [h1A, abs_of_pos Real.pi_pos,
      show sA9.angular_tolerance = (0.2 : ℝ) from rfl]
    have hpi := Real.pi_gt_three
    linarith
  have htw1 : (controlTwist sA9 1).linear = 10 := by
    simp only [controlTwist]
    rw [if_pos hcondA]
    rfl
  have h1B : (computeErrors sB9).1 = 0 := by
    rw [computeErrors_flat sB9 rfl rfl]
    refine atan2_zero_of_pos ?_
    rw [show sB9.waypoint.x = (-5 : ℝ) from rfl,
      show sB9.odom.x = (-10 : ℝ) from rfl]
    norm_num
  have h3B : (computeErrors sB9).2.2 = 5 := by
    rw [computeErrors_flat sB9 rfl rfl]
    show Real.sqrt ((sB9.waypoint.x - sB9.odom.x) ^ 2) = 5
    rw [Real.sqrt_sq_eq_abs, show sB9.waypoint.x = (-5 : ℝ) from rfl,
      show sB9.odom.x = (-10 : ℝ) from rfl]
    norm_num
  have hfarB : ¬ (computeErrors sB9).2.2 < sB9.robot_radius := by
    rw [h3B, show sB9.robot_radius = (0.2 : ℝ) from rfl]
    norm_num
  have hcb2 : odom_callback s1C9 m9b 2 =
      .ok (controlState sB9 2, some (controlTwist sB9 2)) :=
    odom_callback_tracking s1C9 sB9 m9b 2 rfl rfl hfarB
  have hcondB : ¬ sB9.angular_tolerance < |(computeErrors sB9).1| := by
    rw [h1B, abs_zero, show sB9.angular_tolerance = (0.2 : ℝ) from rfl]
    norm_num
  have htw2 : (controlTwist sB9 2).linear =
      (sB9.pid_linear.update (computeErrors sB9).2.1 2).2 := by
    simp only [controlTwist]
    rw [if_neg hcondB]
  have hp1 : sB9.pid_linear.previous_output =
      (sA9.pid_linear.update (computeErrors sA9).2.1 1).2 := rfl
  have hd1 : sB9.pid_linear.delta = 0.05 := rfl
  have habs1 : |(sA9.pid_linear.update (computeErrors sA9).2.1 1).2| ≤ 0.05 := by
    have h := update_slew sA9.pid_linear ((computeErrors sA9).2.1) 1
      (by rw [show sA9.pid_linear.delta = (0.05 : ℝ) from rfl]; norm_num)
    rw [show sA9.pid_linear.previous_output = (0 : ℝ) from rfl, sub_zero,
      show sA9.pid_linear.delta = (0.05 : ℝ) from rfl] at h
    exact h
  have habs2 : |(sB9.pid_linear.update (computeErrors sB9).2.1 2).2 -
      (sA9.pid_linear.update (computeErrors sA9).2.1 1).2| ≤ 0.05 := by
    have h := update_slew sB9.pid_linear ((computeErrors sB9).2.1) 2
      (by rw [hd1]; norm_num)
    rw [hp1, hd1] at h
    exact h
  have htri : |(sB9.pid_linear.update (computeErrors sB9).2.1 2).2| ≤ 0.1 := by
    have h := abs_add
      ((sB9.pid_linear.update (computeErrors sB9).2.1 2).2 -
        (sA9.pid_linear.update (computeErrors sA9).2.1 1).2)
      ((sA9.pid_linear.update (computeErrors sA9).2.1 1).2)
    rw [sub_add_cancel] at h
    linarith
  refine ⟨controlState sA9 1, controlTwist sA9 1, controlState sB9 2,
    controlTwist sB9 2, hcb1, hcb2, rfl, rfl, htw1, ?_⟩
  rw [htw1, htw2, show s9.pid_linear.delta = (0.05 : ℝ) from rfl]
  have hout2le : (sB9.pid_linear.update (computeErrors sB9).2.1 2).2 ≤ 0.1 :=
    le_trans (le_abs_self _) htri
  have hcomm : (10 : ℝ) - (sB9.pid_linear.update (computeErrors sB9).2.1 2).2 ≤
      |(sB9.pid_linear.update (computeErrors sB9).2.1 2).2 - 10| := by
    rw [abs_sub_comm]
    exact le_abs_self _
  linarith

end TrackingPid
